import Mathlib

/-!
Verification development for the Google News scraper app
(`src/streamlit_app.py`).  The Python functions `fetch_preview`,
`scrape_google_news`, `configure_sidebar`, `generate_excel_download` and
`display_news_data` are shallowly embedded as executable Lean functions.
External collaborators (the GNews provider, the HTTP layer and the
BeautifulSoup parse of a fetched page) are passed in as explicit oracle
arguments, so that every embedded function is a total, pure function of
its inputs; library semantics that the source relies on
(`pandas.to_datetime`, `pandas.sort_values`/`numpy.argsort`,
`json.loads`, `pandas.to_csv`, `openpyxl`) are modelled from the
behaviour of those libraries, as documented on each definition.
-/

set_option maxRecDepth 8192

namespace NewsApp

/-- Value found in a raw provider record's `publisher` field: either an
embedded object holding optional `href`/`title` entries, a text blob
(which the source tries to decode as JSON), or a value of some other
runtime type (which makes the source raise and catch a `ValueError`). -/
inductive PubVal where
  | dict (href : Option String) (title : Option String)
  | str (s : String)
  | other
deriving DecidableEq, Repr

/-- Raw article record as returned by the provider (spec §3
`RawArticle`).  Every field is optional: a `none` models the key being
absent from the record's dict, so a `pandas.DataFrame` built from a
batch only has a column when some record carries the key. -/
structure RawArticle where
  title : Option String
  description : Option String
  publishedDate : Option String
  link : Option String
  publisher : Option PubVal
deriving DecidableEq, Repr, Inhabited

/-- Dict keys present in one raw record, in the provider's field order.
Models the keys of one element of the list handed to
`pd.DataFrame(result)` at line 74. -/
def recordKeys (a : RawArticle) : List String :=
  (if a.title.isSome then ["title"] else []) ++
  (if a.description.isSome then ["description"] else []) ++
  (if a.publishedDate.isSome then ["published date"] else []) ++
  (if a.link.isSome then ["link"] else []) ++
  (if a.publisher.isSome then ["publisher"] else [])

/-- Columns of `pd.DataFrame(result)`: the union of the records' keys in
order of first appearance, which is how pandas builds a frame from a
list of dicts.  A record lacking a key gets a NaN cell in that column. -/
def colsUnion (raws : List RawArticle) : List String :=
  raws.foldl (fun acc a => acc ++ (recordKeys a).filter (fun k => decide (k ∉ acc))) []

/-! ### Date parsing

`pd.to_datetime(col, errors='coerce')` (line 78) parses each cell
leniently and turns unparseable cells (and NaN cells of records that
lacked the key) into `NaT`.  The model below covers ISO `YYYY-MM-DD`
strings, the format exercised throughout; a parse failure is `none`
(= `NaT`).  The key `y*10000 + m*100 + d` is strictly monotone in the
calendar date, so comparisons agree with timestamp comparisons. -/

/-- Digit list to number, `none` when a non-digit occurs. -/
def digitsToNat (cs : List Char) : Option Nat :=
  cs.foldl (fun acc c =>
    match acc with
    | none => none
    | some n => if c.isDigit then some (n * 10 + (c.toNat - 48)) else none) (some 0)

/-- Days in a month of the (proleptic) Gregorian calendar. -/
def daysInMonth (y m : Nat) : Nat :=
  if m = 2 then (if y % 4 = 0 ∧ (y % 100 ≠ 0 ∨ y % 400 = 0) then 29 else 28)
  else if m = 4 ∨ m = 6 ∨ m = 9 ∨ m = 11 then 30 else 31

/-- Models `pd.to_datetime(s, errors='coerce')` on one cell, restricted
to ISO `YYYY-MM-DD` input; anything else coerces to `NaT` (`none`). -/
def parseDate (s : String) : Option Nat :=
  match s.toList with
  | [y1, y2, y3, y4, c1, m1, m2, c2, d1, d2] =>
    if c1 = '-' ∧ c2 = '-' then
      match digitsToNat [y1, y2, y3, y4], digitsToNat [m1, m2], digitsToNat [d1, d2] with
      | some y, some m, some d =>
        if 1 ≤ m ∧ m ≤ 12 ∧ 1 ≤ d ∧ d ≤ daysInMonth y m
        then some (y * 10000 + m * 100 + d) else none
      | _, _, _ => none
    else none
  | _ => none

/-! ### The sort used by `sort_values`

Line 80 runs `news_df.sort_values(by='published date', ascending=False)`
with the default `kind='quicksort'`.  pandas (`pandas/core/sorting.py`,
`nargsort`) implements a descending sort as: reverse the column, argsort
it ascending with the requested numpy kind, and reverse the resulting
indexer, so the observable row order is
`reverse (numpy_sort_asc (reverse rows))`.

numpy's `quicksort` kind is an introsort
(`numpy/core/src/npysort/quicksort.c.src`): segments of more than 16
elements are partitioned with a median-of-three pivot and explicit index
swaps, and segments of at most 16 elements are finished with a stable
insertion sort.  `npQSort` below translates that algorithm over lists:
the swap/scan/partition routines mirror the C code's pointer
manipulations (the value-level swaps below are equivalent to numpy's
swaps of `tosort` index entries, because comparisons only ever look at
values).  The depth-limit heapsort fallback of the C code is for
pathological pivot sequences only and is never reached at the batch
sizes this program can produce (`max_results ≤ 100` gives
`depth_limit = 2·msb(n) ≥ 12`); it is not modelled. -/

/-- Swap the entries at positions `i` and `j` (`INTP_SWAP`); out-of-range
or equal positions leave the list unchanged, as a self-swap does in C. -/
def segSwap [Inhabited α] (l : List α) (i j : Nat) : List α :=
  if i < l.length ∧ j < l.length then
    (l.set i (l.getD j default)).set j (l.getD i default)
  else l

/-- Upward scan `do ++pi; while (v[*pi] < vp);` of the partition loop. -/
def scanUp [Inhabited α] (key : α → Nat) (vp : Nat) (arr : List α) : Nat → Nat → Nat
  | 0, pi => pi + 1
  | fuel + 1, pi =>
    let pi2 := pi + 1
    if key (arr.getD pi2 default) < vp then scanUp key vp arr fuel pi2 else pi2

/-- Downward scan `do --pj; while (vp < v[*pj]);` of the partition loop. -/
def scanDown [Inhabited α] (key : α → Nat) (vp : Nat) (arr : List α) : Nat → Nat → Nat
  | 0, pj => pj - 1
  | fuel + 1, pj =>
    let pj2 := pj - 1
    if vp < key (arr.getD pj2 default) then scanDown key vp arr fuel pj2 else pj2

/-- The `for (;;) { ... }` partition loop of numpy's quicksort: scan up,
scan down, stop when the cursors cross, otherwise swap and continue.
Returns the permuted segment and the final `pi`. -/
def partLoop [Inhabited α] (key : α → Nat) (vp : Nat) :
    Nat → List α → Nat → Nat → List α × Nat
  | 0, arr, pi, _ => (arr, pi)
  | fuel + 1, arr, pi, pj =>
    let pi2 := scanUp key vp arr (arr.length + 2) pi
    let pj2 := scanDown key vp arr (arr.length + 2) pj
    if pi2 ≥ pj2 then (arr, pi2)
    else partLoop key vp fuel (segSwap arr pi2 pj2) pi2 pj2

/-- One partition step of numpy's quicksort on a whole segment:
median-of-three pivot selection with conditional swaps, stash the pivot
at `pr-1`, run the partition loop, and place the pivot at the crossing
point.  Returns the permuted segment and the pivot position. -/
def partitionSeg [Inhabited α] (key : α → Nat) (l : List α) : List α × Nat :=
  let n := l.length
  let pm := (n - 1) / 2
  let l1 := if key (l.getD pm default) < key (l.getD 0 default) then segSwap l pm 0 else l
  let l2 := if key (l1.getD (n - 1) default) < key (l1.getD pm default)
            then segSwap l1 (n - 1) pm else l1
  let l3 := if key (l2.getD pm default) < key (l2.getD 0 default) then segSwap l2 pm 0 else l2
  let vp := key (l3.getD pm default)
  let l4 := segSwap l3 pm (n - 2)
  let r := partLoop key vp (n + 2) l4 0 (n - 2)
  (segSwap r.1 r.2 (n - 2), r.2)

/-- numpy `argsort(kind='quicksort')` as a value-level sort: segments of
at most 16 elements go to the stable insertion sort (the
`SMALL_QUICKSORT` phase of the C code; `List.insertionSort` computes the
same stable ascending order), larger segments are partitioned and the
two sides sorted recursively.  `fuel` bounds the recursion depth; each
partition strictly shrinks the segment, so `length + 1` fuel always
suffices. -/
def npQSort [Inhabited α] (key : α → Nat) : Nat → List α → List α
  | 0, l => l
  | fuel + 1, l =>
    if l.length ≤ 16 then List.insertionSort (fun a b => key a ≤ key b) l
    else
      let pr := partitionSeg key l
      npQSort key fuel (pr.1.take pr.2) ++ (pr.1.drop pr.2).take 1 ++
        npQSort key fuel (pr.1.drop (pr.2 + 1))

/-- Models `df.sort_values(by=…, ascending=False, kind='quicksort')` row
order via pandas `nargsort`: reverse, numpy-argsort ascending, reverse. -/
def pandasSortDesc [Inhabited α] (key : α → Nat) (l : List α) : List α :=
  (npQSort key (l.length + 1) l.reverse).reverse

/-! ### `json.loads` on publisher blobs

The loop at lines 91-111 runs `json.loads` on a string-valued
`publisher` cell and then calls `.get('href')`/`.get('title')` on the
result.  The model below parses flat JSON objects with string keys and
string values (the shape the provider emits); any other input — invalid
JSON, or JSON whose top level is not such an object — yields `none`.  In
the source those two cases raise `json.JSONDecodeError` respectively
`AttributeError`, both of which are caught and logged, leaving the two
derived fields `None`; the model's single `none` therefore produces
exactly the observable outcome of both paths. -/

/-- Whitespace skipping of the JSON grammar. -/
def skipWs : List Char → List Char
  | [] => []
  | c :: cs => if c = ' ' ∨ c = '\t' ∨ c = '\n' ∨ c = '\r' then skipWs cs else c :: cs

/-- Read the characters of a JSON string literal after the opening
quote, up to the closing quote; escape sequences are not part of the
modelled subset and make the parse fail. -/
def strChars : List Char → Option (List Char × List Char)
  | [] => none
  | c :: cs =>
    if c = '"' then some ([], cs)
    else if c = '\\' then none
    else match strChars cs with
      | some (s, rest) => some (c :: s, rest)
      | none => none


/-- Parse the members of a JSON object after the opening brace (first
member onward); returns the key/value pairs and the input after the
closing brace. -/
def parseMembers : Nat → List Char → Option (List (String × String) × List Char)
  | 0, _ => none
  | fuel + 1, cs =>
    match skipWs cs with
    | '"' :: cs1 =>
      match strChars cs1 with
      | none => none
      | some (kcs, cs2) =>
        match skipWs cs2 with
        | ':' :: cs3 =>
          match skipWs cs3 with
          | '"' :: cs4 =>
            match strChars cs4 with
            | none => none
            | some (vcs, cs5) =>
              match skipWs cs5 with
              | ',' :: cs6 =>
                match parseMembers fuel cs6 with
                | some (pairs, rest) => some ((String.mk kcs, String.mk vcs) :: pairs, rest)
                | none => none
              | '}' :: cs6 => some ([(String.mk kcs, String.mk vcs)], cs6)
              | _ => none
          | _ => none
        | _ => none
    | _ => none

/-- Models `json.loads(s)` followed by `.get(…)` access: the decoded
flat string-to-string object, or `none` for any input whose decode (or
subsequent attribute access) raises in the source. -/
def jsonLoadsObj (s : String) : Option (List (String × String)) :=
  match skipWs s.toList with
  | '{' :: cs =>
    match skipWs cs with
    | '}' :: rest => if skipWs rest = [] then some [] else none
    | _ =>
      match parseMembers (cs.length + 1) cs with
      | some (pairs, rest) => if skipWs rest = [] then some pairs else none
      | none => none
  | _ => none

/-- Python `dict.get(k, None)` on the decoded object; later duplicate
keys win, as they do in `json.loads`. -/
def dictGet (m : List (String × String)) (k : String) : Option String :=
  (m.reverse.find? (fun p => p.1 == k)).map (fun p => p.2)

/-- Body of the publisher loop (lines 92-111) for one cell: returns the
`(url_of_publisher, name_of_publisher)` pair written into the row and
whether a diagnostic was logged.  A `none` cell is the NaN a record
without the key got in the frame; its runtime type is neither `str` nor
`dict`, so the source raises and catches `ValueError` and leaves both
fields `None`. -/
def flatten_publisher : Option PubVal → (Option String × Option String) × Bool
  | some (PubVal.str s) =>
    match jsonLoadsObj s with
    | some m => ((dictGet m "href", dictGet m "title"), false)
    | none => ((none, none), true)
  | some (PubVal.dict h t) => ((h, t), false)
  | some PubVal.other => ((none, none), true)
  | none => ((none, none), true)

/-- Outcome of `requests.get` plus `BeautifulSoup` on one URL: the
page's meta-description content (`none` when the tag or its `content`
attribute is missing) and its joined visible text, or a failure
(timeout, non-2xx raised by `raise_for_status`, any parse error). -/
structure Page where
  metaDesc : Option String
  text : String
deriving DecidableEq, Repr

/-- HTTP oracle result for `fetch_preview`. -/
inductive HttpResult where
  | ok (page : Page)
  | err
deriving DecidableEq, Repr

/-- Truncation applied to the visible-text fallback (line 45):
`text[:150] + '...' if len(text) > 150 else text`. -/
def textFallback (t : String) : String :=
  if t.length > 150 then t.take 150 ++ "..." else t

/-- Successful-response body of `fetch_preview` (lines 38-45).  The meta
branch is taken when the tag exists and its content is truthy (a
non-empty string), and appends the ellipsis marker unconditionally:
`description.get('content')[:150] + '...'`. -/
def previewOfPage (p : Page) : String :=
  match p.metaDesc with
  | some c => if c = "" then textFallback p.text else c.take 150 ++ "..."
  | none => textFallback p.text

/-- Embeds `fetch_preview(url)` (lines 23-48): everything runs inside
`try`, so a missing URL (a NaN cell, for which `requests.get` raises) or
any failed fetch falls into the `except` branch, which logs and returns
the placeholder.  The function is total: no exception reaches the
caller. -/
def fetch_preview (web : String → HttpResult) : Option String → String
  | none => "No preview available."
  | some url =>
    match web url with
    | HttpResult.ok p => previewOfPage p
    | HttpResult.err => "No preview available."

/-! ### The normalization pipeline (`scrape_google_news`, lines 50-129) -/

/-- Output row of the pipeline.  `published_ts` holds the parsed
timestamp written back into the `published date` column (or `none` when
the batch had no such column); the flattened publisher fields and the
preview fields are `none` when their column was never created, which the
schema (`outCols`) records.  The combined `publisher` field does not
appear: the source drops it (line 114). -/
structure NormRow where
  title : Option String
  description : Option String
  published_ts : Option Nat
  link : Option String
  url_of_publisher : Option String
  name_of_publisher : Option String
  link_preview : Option String
  publisher_preview : Option String
deriving DecidableEq, Repr

/-- Date-parsing stage (lines 77-83): when the `published date` column
exists, parse every cell (`errors='coerce'`), drop the `NaT` rows
(`dropna`) and sort descending; when it does not exist, only a warning
is logged and every row passes through unchanged and unsorted. -/
def dateStage (raws : List RawArticle) : List (RawArticle × Option Nat) :=
  if "published date" ∈ colsUnion raws then
    pandasSortDesc (fun p => p.2.getD 0)
      ((raws.map (fun a => (a, a.publishedDate.bind parseDate))).filter (fun p => p.2.isSome))
  else raws.map (fun a => (a, none))

/-- Rows that survive `dropna` before the sort, with their parsed key. -/
def keptRows (raws : List RawArticle) : List (RawArticle × Option Nat) :=
  (raws.map (fun a => (a, a.publishedDate.bind parseDate))).filter (fun p => p.2.isSome)

/-- Publisher stage for one row (lines 86-115): when the `publisher`
column exists the two derived cells are filled from
`flatten_publisher`; otherwise the derived columns are never created. -/
def buildRow (hasPub : Bool) (p : RawArticle × Option Nat) : NormRow :=
  let pub := if hasPub then (flatten_publisher p.1.publisher).1 else (none, none)
  { title := p.1.title, description := p.1.description, published_ts := p.2,
    link := p.1.link, url_of_publisher := pub.1, name_of_publisher := pub.2,
    link_preview := none, publisher_preview := none }

/-- Preview stage for one row (lines 120-123): a `link_preview` cell is
added when the raw frame has a `link` column, and a `publisher_preview`
cell when the derived `url_of_publisher` column exists. -/
def previewStage (web : String → HttpResult) (hasLink hasPub : Bool) (r : NormRow) : NormRow :=
  let r1 := if hasLink then { r with link_preview := some (fetch_preview web r.link) } else r
  if hasPub then { r1 with publisher_preview := some (fetch_preview web r1.url_of_publisher) }
  else r1

/-- Per-row transformation applied after the date stage: the publisher
stage (with its column-existence checks at lines 86 and 122) followed by
the preview stage (line 120's check). -/
def normTransform (web : String → HttpResult) (raws : List RawArticle)
    (p : RawArticle × Option Nat) : NormRow :=
  previewStage web (decide ("link" ∈ colsUnion raws)) (decide ("publisher" ∈ colsUnion raws))
    (buildRow (decide ("publisher" ∈ colsUnion raws)) p)

/-- Rows of the normalized table: lines 74-125 of `scrape_google_news`
applied to a non-empty raw batch. -/
def normalize (web : String → HttpResult) (raws : List RawArticle) : List NormRow :=
  (dateStage raws).map (normTransform web raws)

/-- Column list of the frame returned by the pipeline, mirroring the
schema edits the source makes in order: the derived publisher columns
are appended (lines 88-89) and the combined `publisher` column is
dropped (line 114) when it existed; `link_preview` (line 121) and
`publisher_preview` (line 123) are appended when their guard column
exists. -/
def colsAfterPub (raws : List RawArticle) : List String :=
  if "publisher" ∈ colsUnion raws then
    (colsUnion raws ++ ["url_of_publisher", "name_of_publisher"]).filter
      (fun c => decide (c ≠ "publisher"))
  else colsUnion raws

/-- Columns after the `link_preview` step (line 121). -/
def colsAfterLink (raws : List RawArticle) : List String :=
  if "link" ∈ colsUnion raws then colsAfterPub raws ++ ["link_preview"] else colsAfterPub raws

/-- Columns of the returned frame. -/
def outCols (raws : List RawArticle) : List String :=
  if "url_of_publisher" ∈ colsAfterLink raws then colsAfterLink raws ++ ["publisher_preview"]
  else colsAfterLink raws

/-- Result of one `GNews(...).get_news(query)` call (the provider
boundary): a list of raw records, or a raised transport/provider
exception. -/
inductive ProviderResult where
  | ok (articles : List RawArticle)
  | err
deriving Repr

/-- Arguments the source hands the provider wrapper (lines 65-69):
`GNews(language='en', country='US', max_results=max_results)` with the
start/end dates assigned, then `get_news(query)`.  Dates are modelled as
day numbers (days since 2000-01-01). -/
structure FetchCall where
  query : String
  start_date : Int
  end_date : Int
  max_results : Int
deriving DecidableEq, Repr

/-- The call `scrape_google_news` issues; it is built from the raw
arguments with no validation of the date order or the result bound. -/
def mkFetchCall (q : String) (s e m : Int) : FetchCall :=
  { query := q, start_date := s, end_date := e, max_results := m }

/-- Observable outcome of `scrape_google_news`: the frame (columns and
rows), whether `st.error` was shown (the `except` branch, line 128), and
whether the zero-result warning was logged (line 71). -/
structure ScrapeResult where
  cols : List String
  rows : List NormRow
  errorReported : Bool
  warnedNoResults : Bool
deriving Repr

/-- Embeds `scrape_google_news(query, start_date, end_date, max_results)`
(lines 50-129).  The provider is called unconditionally — the body
performs no validation of its arguments.  An empty provider result
returns `pd.DataFrame()` (a frame with no columns) after a warning log;
a raised provider error is caught by the `except` at line 126, reported
via `st.error`, and converted to the same empty frame.  The function is
total: no exception reaches the caller. -/
def scrape_google_news (web : String → HttpResult) (provider : FetchCall → ProviderResult)
    (q : String) (s e m : Int) : ScrapeResult :=
  match provider (mkFetchCall q s e m) with
  | ProviderResult.err =>
    { cols := [], rows := [], errorReported := true, warnedNoResults := false }
  | ProviderResult.ok [] =>
    { cols := [], rows := [], errorReported := false, warnedNoResults := true }
  | ProviderResult.ok raws =>
    { cols := outCols raws, rows := normalize web raws,
      errorReported := false, warnedNoResults := false }

/-! ### Exporters and display (`display_news_data`, lines 199-268, and
`generate_excel_download`, lines 183-197) -/

/-- Text rendered into a CSV cell for a named column of a row; a `None`
or NaT cell renders as the empty string, as pandas does.  Timestamps
print via their order key (the concrete text pandas uses for a
`Timestamp` does not matter for any property below). -/
def cellOf (r : NormRow) : String → String
  | "title" => r.title.getD ""
  | "description" => r.description.getD ""
  | "published date" => match r.published_ts with | some n => toString n | none => ""
  | "link" => r.link.getD ""
  | "url_of_publisher" => r.url_of_publisher.getD ""
  | "name_of_publisher" => r.name_of_publisher.getD ""
  | "link_preview" => r.link_preview.getD ""
  | "publisher_preview" => r.publisher_preview.getD ""
  | _ => ""

/-- Minimal CSV quoting: a field containing a delimiter, quote or line
break is wrapped in quotes with inner quotes doubled. -/
def csvEscape (s : String) : String :=
  if s.toList.any (fun c => c = ',' ∨ c = '"' ∨ c = '\n' ∨ c = '\r') then
    "\"" ++ String.mk (s.toList.foldr
      (fun c acc => if c = '"' then '"' :: '"' :: acc else c :: acc) []) ++ "\""
  else s

/-- Embeds `news_df.to_csv(index=False)` (line 254): the header row is
the comma-joined column names, followed by one line per row.  For the
empty `pd.DataFrame()` (no columns, no rows) this is a single blank
line, which is what pandas emits. -/
def to_csv (cols : List String) (rows : List NormRow) : String :=
  String.intercalate "," (cols.map csvEscape) ++ "\n" ++
    String.join (rows.map (fun r =>
      String.intercalate "," (cols.map (fun c => csvEscape (cellOf r c))) ++ "\n"))

/-- Byte content of the `.xlsx` container produced by
`generate_excel_download` (lines 183-197).  Besides the sheet data,
openpyxl serializes the workbook's document properties into
`docProps/core.xml`; their `created`/`modified` stamps default to
`datetime.datetime.now()` at workbook creation, so the emitted bytes are
a function of the table AND of the wall clock at generation time —
`created` carries that dependency here. -/
structure XlsxFile where
  sheetName : String
  header : List String
  cells : List (List String)
  created : Nat
deriving DecidableEq, Repr

/-- Embeds `generate_excel_download(df)`: one sheet named `GoogleNews`,
`index=False`, engine openpyxl; `now` is the wall clock the library
reads while the source runs. -/
def generate_excel_download (cols : List String) (rows : List NormRow) (now : Nat) : XlsxFile :=
  { sheetName := "GoogleNews", header := cols,
    cells := rows.map (fun r => cols.map (fun c => cellOf r c)),
    created := now }

/-- What `display_news_data` does with a frame. -/
inductive DisplayAction where
  | infoNoArticles
  | gridWithDownloads
deriving DecidableEq, Repr

/-- Embeds the control flow of `display_news_data` (lines 199-268): an
empty frame short-circuits to an informational message and returns
before any grid or download button — in particular no CSV and no
spreadsheet bytes are produced for it. -/
def display_news_data (rows : List NormRow) : DisplayAction :=
  if rows.isEmpty then DisplayAction.infoNoArticles else DisplayAction.gridWithDownloads

/-! ### Sidebar configuration (`configure_sidebar`, lines 131-181)

Dates are day numbers with 2000-01-01 as day 0 (the `min_value` of the
start-date picker, line 159).  A `st.date_input`/`st.slider` widget only
ever yields a value inside its `[min_value, max_value]` range, modelled
by clamping the user's pick into that range; the defaults the source
passes all lie inside the respective ranges. -/

/-- Clamp an integer pick into a widget range. -/
def clampI (lo hi x : Int) : Int := max lo (min hi x)

/-- Configuration produced by the sidebar. -/
structure Config where
  query : String
  start_date : Int
  end_date : Int
  max_results : Int
deriving DecidableEq, Repr

/-- Embeds `configure_sidebar()`: the start picker ranges over
`[2000-01-01, tomorrow]`, the end picker over `[start_date, tomorrow]`
(line 166: `min_value=start_date`), and the slider over `[1, 100]`. -/
def configure_sidebar (today : Int) (q : String) (startPick endPick maxPick : Int) : Config :=
  let tomorrow := today + 1
  let startDate := clampI 0 tomorrow startPick
  let endDate := clampI startDate tomorrow endPick
  { query := q, start_date := startDate, end_date := endDate,
    max_results := clampI 1 100 maxPick }

/-! ### Permutation facts about the embedded sort -/

/-- Moving the `k`-th element of `l` to the head while writing `a` into
its place is a permutation of `a :: l`. -/
theorem headSwapPerm [Inhabited α] (a : α) :
    ∀ (l : List α) (k : Nat), k < l.length →
      List.Perm (l.getD k default :: l.set k a) (a :: l)
  | [], k, h => absurd h (by simp)
  | b :: m, 0, _ => by simpa using List.Perm.swap a b m
  | b :: m, k + 1, h => by
    have hk : k < m.length := by simpa using h
    exact (List.Perm.swap b (m.getD k default) (m.set k a)).trans
      (((headSwapPerm a m k hk).cons b).trans (List.Perm.swap a b m))

/-- Writing each of two positions' values into the other is a
permutation. -/
theorem setSetPerm [Inhabited α] :
    ∀ (l : List α) (i j : Nat), i < l.length → j < l.length →
      List.Perm ((l.set i (l.getD j default)).set j (l.getD i default)) l
  | [], i, _, hi, _ => absurd hi (by simp)
  | b :: m, 0, 0, _, _ => by simp
  | b :: m, 0, j + 1, _, hj => by
    have hj2 : j < m.length := by simpa using hj
    simpa using headSwapPerm b m j hj2
  | b :: m, i + 1, 0, hi, _ => by
    have hi2 : i < m.length := by simpa using hi
    simpa using headSwapPerm b m i hi2
  | b :: m, i + 1, j + 1, hi, hj => by
    have hi2 : i < m.length := by simpa using hi
    have hj2 : j < m.length := by simpa using hj
    simpa using (setSetPerm m i j hi2 hj2).cons b

/-- `segSwap` permutes the list. -/
theorem segSwap_perm [Inhabited α] (l : List α) (i j : Nat) :
    List.Perm (segSwap l i j) l := by
  unfold segSwap
  split_ifs with h
  · exact setSetPerm l i j h.1 h.2
  · exact List.Perm.refl l

/-- The partition loop permutes the segment. -/
theorem partLoop_perm [Inhabited α] (key : α → Nat) (vp : Nat) :
    ∀ (fuel : Nat) (arr : List α) (pi pj : Nat),
      List.Perm (partLoop key vp fuel arr pi pj).1 arr
  | 0, arr, pi, pj => List.Perm.refl arr
  | fuel + 1, arr, pi, pj => by
    unfold partLoop
    dsimp only
    split_ifs with h
    · exact List.Perm.refl arr
    · exact (partLoop_perm key vp fuel _ _ _).trans (segSwap_perm arr _ _)

/-- A guarded swap permutes the list. -/
theorem ite_segSwap_perm [Inhabited α] (c : Prop) [Decidable c] (l : List α) (i j : Nat) :
    List.Perm (if c then segSwap l i j else l) l := by
  split_ifs with h
  · exact segSwap_perm l i j
  · exact List.Perm.refl l

/-- The partition step permutes the segment. -/
theorem partitionSeg_perm [Inhabited α] (key : α → Nat) (l : List α) :
    List.Perm (partitionSeg key l).1 l := by
  unfold partitionSeg
  dsimp only
  exact (segSwap_perm _ _ _).trans ((partLoop_perm _ _ _ _ _ _).trans
    ((segSwap_perm _ _ _).trans ((ite_segSwap_perm _ _ _ _).trans
      ((ite_segSwap_perm _ _ _ _).trans (ite_segSwap_perm _ _ _ _)))))

/-- Splitting a list at a position into head part, the element there
(when any) and the tail part reassembles the list. -/
theorem seg_decomp (F : List α) (pi : Nat) :
    F.take pi ++ ((F.drop pi).take 1 ++ F.drop (pi + 1)) = F := by
  have h1 : F.drop (pi + 1) = (F.drop pi).drop 1 := by
    rw [List.drop_drop, Nat.add_comm]
  rw [h1, List.take_append_drop, List.take_append_drop]

/-- The embedded numpy quicksort permutes its input. -/
theorem npQSort_perm [Inhabited α] (key : α → Nat) :
    ∀ (fuel : Nat) (l : List α), List.Perm (npQSort key fuel l) l
  | 0, l => List.Perm.refl l
  | fuel + 1, l => by
    unfold npQSort
    dsimp only
    split_ifs with h
    · exact List.perm_insertionSort _ l
    · have hA := npQSort_perm key fuel ((partitionSeg key l).1.take (partitionSeg key l).2)
      have hC := npQSort_perm key fuel ((partitionSeg key l).1.drop ((partitionSeg key l).2 + 1))
      have h2 : (partitionSeg key l).1.take (partitionSeg key l).2 ++
          ((partitionSeg key l).1.drop (partitionSeg key l).2).take 1 ++
          (partitionSeg key l).1.drop ((partitionSeg key l).2 + 1) = (partitionSeg key l).1 := by
        rw [List.append_assoc]
        exact seg_decomp _ _
      have h3 := (hA.append (List.Perm.refl
        (((partitionSeg key l).1.drop (partitionSeg key l).2).take 1))).append hC
      rw [h2] at h3
      exact h3.trans (partitionSeg_perm key l)

/-- The embedded pandas descending sort permutes its input. -/
theorem pandasSortDesc_perm [Inhabited α] (key : α → Nat) (l : List α) :
    List.Perm (pandasSortDesc key l) l :=
  (List.reverse_perm _).trans ((npQSort_perm key _ _).trans (List.reverse_perm l))

/-! ### Stability and sortedness of the small-batch regime -/

/-- Inserting an element does not disturb, among the rows of any one key
value, the relative order: elements passed over during the insertion
have a strictly smaller key. -/
theorem orderedInsert_filter_key (key : α → Nat) (k : Nat) (x : α) :
    ∀ l : List α,
      (l.orderedInsert (fun a b => key a ≤ key b) x).filter (fun y => key y == k)
        = ((x :: l).filter (fun y => key y == k))
  | [] => rfl
  | b :: m => by
    by_cases hle : key x ≤ key b
    · simp only [List.orderedInsert, if_pos hle]
    · have hlt : key b < key x := Nat.lt_of_not_le hle
      have hrec := orderedInsert_filter_key key k x m
      simp only [List.orderedInsert, if_neg hle, List.filter_cons] at *
      by_cases hxk : key x = k
      · have hx : (key x == k) = true := beq_iff_eq.mpr hxk
        have hb : (key b == k) = false := by
          have hne : key b ≠ k := by omega
          exact beq_eq_false_iff_ne.mpr hne
        simp only [hx, hb, if_true, Bool.false_eq_true, if_false] at *
        exact hrec
      · have hx : (key x == k) = false := beq_eq_false_iff_ne.mpr hxk
        simp only [hx, Bool.false_eq_true, if_false] at *
        rw [hrec]

/-- Insertion sort keeps the rows of any one key value in their
original relative order. -/
theorem insertionSort_filter_key (key : α → Nat) (k : Nat) :
    ∀ l : List α,
      (l.insertionSort (fun a b => key a ≤ key b)).filter (fun y => key y == k)
        = l.filter (fun y => key y == k)
  | [] => rfl
  | b :: m => by
    rw [List.insertionSort]
    rw [orderedInsert_filter_key key k b (m.insertionSort _)]
    simp only [List.filter_cons]
    rw [insertionSort_filter_key key k m]

/-- On a batch of at most 16 rows the numpy sort is its insertion-sort
phase, so the pandas descending sort is the double-reversed stable
ascending sort. -/
theorem pandasSortDesc_small [Inhabited α] (key : α → Nat) (l : List α)
    (h : l.length ≤ 16) :
    pandasSortDesc key l
      = (l.reverse.insertionSort (fun a b => key a ≤ key b)).reverse := by
  unfold pandasSortDesc npQSort
  simp only [List.length_reverse]
  rw [if_pos h]

/-- For at most 16 rows, the descending sort keeps the rows of any one
key value in their original relative order. -/
theorem pandasSortDesc_small_filter [Inhabited α] (key : α → Nat) (l : List α)
    (h : l.length ≤ 16) (k : Nat) :
    (pandasSortDesc key l).filter (fun y => key y == k)
      = l.filter (fun y => key y == k) := by
  rw [pandasSortDesc_small key l h]
  rw [List.filter_reverse, insertionSort_filter_key key k l.reverse,
    List.filter_reverse, List.reverse_reverse]

/-- For at most 16 rows, the descending sort is sorted descending. -/
theorem pandasSortDesc_small_sorted [Inhabited α] (key : α → Nat) (l : List α)
    (h : l.length ≤ 16) :
    List.Sorted (fun a b => key b ≤ key a) (pandasSortDesc key l) := by
  rw [pandasSortDesc_small key l h]
  rw [List.Sorted, List.pairwise_reverse]
  haveI : IsTotal α (fun a b => key a ≤ key b) := ⟨fun a b => Nat.le_total (key a) (key b)⟩
  haveI : IsTrans α (fun a b => key a ≤ key b) :=
    ⟨fun _ _ _ hab hbc => Nat.le_trans hab hbc⟩
  exact List.sorted_insertionSort _ _

/-! ### Schema facts -/

/-- Membership in the folded key union. -/
theorem mem_colsUnion_aux (k : String) :
    ∀ (raws : List RawArticle) (acc : List String),
      (k ∈ raws.foldl
        (fun acc a => acc ++ (recordKeys a).filter (fun s => decide (s ∉ acc))) acc)
      ↔ k ∈ acc ∨ ∃ a ∈ raws, k ∈ recordKeys a
  | [], acc => by simp
  | a :: t, acc => by
    rw [List.foldl_cons, mem_colsUnion_aux k t]
    simp only [List.mem_append, List.mem_filter, decide_eq_true_eq, List.mem_cons]
    constructor
    · rintro (((h | h) | ⟨b, hb, hk⟩))
      · exact Or.inl h
      · exact Or.inr ⟨a, Or.inl rfl, h.1⟩
      · exact Or.inr ⟨b, Or.inr hb, hk⟩
    · rintro (h | ⟨b, (rfl | hb), hk⟩)
      · exact Or.inl (Or.inl h)
      · by_cases hacc : k ∈ acc
        · exact Or.inl (Or.inl hacc)
        · exact Or.inl (Or.inr ⟨hk, hacc⟩)
      · exact Or.inr ⟨b, hb, hk⟩

/-- A key is a column of the raw frame exactly when some record carries
it. -/
theorem mem_colsUnion (k : String) (raws : List RawArticle) :
    k ∈ colsUnion raws ↔ ∃ a ∈ raws, k ∈ recordKeys a := by
  unfold colsUnion
  rw [mem_colsUnion_aux k raws []]
  simp

/-- The `published date` key of one record. -/
theorem pubdate_mem_recordKeys (a : RawArticle) :
    "published date" ∈ recordKeys a ↔ a.publishedDate.isSome := by
  rcases a with ⟨t, d, pd, l, p⟩
  cases t <;> cases d <;> cases pd <;> cases l <;> cases p <;> simp [recordKeys]

/-- The raw frame has a `published date` column exactly when some record
carries the key. -/
theorem pubdate_col_iff (raws : List RawArticle) :
    "published date" ∈ colsUnion raws ↔ ∃ a ∈ raws, a.publishedDate.isSome := by
  rw [mem_colsUnion]
  constructor
  · rintro ⟨a, ha, hk⟩
    exact ⟨a, ha, (pubdate_mem_recordKeys a).mp hk⟩
  · rintro ⟨a, ha, hk⟩
    exact ⟨a, ha, (pubdate_mem_recordKeys a).mpr hk⟩

/-- The dropped `publisher` column stays out of the post-publisher
schema. -/
theorem publisher_not_mem_colsAfterPub (raws : List RawArticle) :
    "publisher" ∉ colsAfterPub raws := by
  unfold colsAfterPub
  split_ifs with h
  · intro hmem
    rcases List.mem_filter.mp hmem with ⟨_, hne⟩
    simp at hne
  · exact h

/-- The combined `publisher` column is absent from the output schema. -/
theorem publisher_not_mem_outCols (raws : List RawArticle) :
    "publisher" ∉ outCols raws := by
  have h1 := publisher_not_mem_colsAfterPub raws
  have h2 : "publisher" ∉ colsAfterLink raws := by
    unfold colsAfterLink
    split_ifs
    · intro hmem
      rcases List.mem_append.mp hmem with h | h
      · exact h1 h
      · simp at h
    · exact h1
  unfold outCols
  split_ifs
  · intro hmem
    rcases List.mem_append.mp hmem with h | h
    · exact h2 h
    · simp at h
  · exact h2

/-! ### Row-level facts about the pipeline stages -/

/-- Order key of an output row. -/
def tsKey (r : NormRow) : Nat := r.published_ts.getD 0

/-- The preview stage never touches the parsed timestamp. -/
theorem previewStage_ts (web : String → HttpResult) (hl hp : Bool) (r : NormRow) :
    (previewStage web hl hp r).published_ts = r.published_ts := by
  unfold previewStage
  dsimp only
  split_ifs <;> rfl

/-- The preview stage never touches the title. -/
theorem previewStage_title (web : String → HttpResult) (hl hp : Bool) (r : NormRow) :
    (previewStage web hl hp r).title = r.title := by
  unfold previewStage
  dsimp only
  split_ifs <;> rfl

/-- The per-row transformation carries the date-stage timestamp into the
output row unchanged. -/
theorem normTransform_ts (web : String → HttpResult) (raws : List RawArticle)
    (p : RawArticle × Option Nat) :
    (normTransform web raws p).published_ts = p.2 := by
  unfold normTransform
  rw [previewStage_ts]
  rfl

/-- The per-row transformation carries the record title into the output
row unchanged. -/
theorem normTransform_title (web : String → HttpResult) (raws : List RawArticle)
    (p : RawArticle × Option Nat) :
    (normTransform web raws p).title = p.1.title := by
  unfold normTransform
  rw [previewStage_title]
  rfl

/-- The date stage when the `published date` column exists. -/
theorem dateStage_col (raws : List RawArticle)
    (h : "published date" ∈ colsUnion raws) :
    dateStage raws = pandasSortDesc (fun p => p.2.getD 0) (keptRows raws) := by
  rw [dateStage, if_pos h]
  rfl

/-- The date stage when the `published date` column is missing. -/
theorem dateStage_nocol (raws : List RawArticle)
    (h : "published date" ∉ colsUnion raws) :
    dateStage raws = raws.map (fun a => (a, none)) := by
  rw [dateStage, if_neg h]

/-- Row counts through the per-row stages. -/
theorem normalize_length (web : String → HttpResult) (raws : List RawArticle) :
    (normalize web raws).length = (dateStage raws).length := by
  simp [normalize]

/-! ### Concrete fixtures used by witnesses and counterexamples -/

/-- Web oracle on which every fetch fails. -/
def webErr : String → HttpResult := fun _ => HttpResult.err

/-- Raw record carrying only a title and an optional published date. -/
def sampleArticle (t : String) (d : Option String) : RawArticle :=
  { title := some t, description := none, publishedDate := d, link := none, publisher := none }

/-- Provider oracle that always raises. -/
def providerErr : FetchCall → ProviderResult := fun _ => ProviderResult.err

/-- Provider oracle that always returns zero matches. -/
def providerEmpty : FetchCall → ProviderResult := fun _ => ProviderResult.ok []

/-- Provider oracle returning one dated article, whatever the call. -/
def providerOne : FetchCall → ProviderResult :=
  fun _ => ProviderResult.ok [sampleArticle "X" (some "2023-06-01")]

/-- Batch of three raw articles: two parseable dates and one bad date
(the scenario of spec §8). -/
def raws3 : List RawArticle :=
  [sampleArticle "X" (some "2023-06-01"), sampleArticle "Y" (some "2023-06-03"),
   sampleArticle "Z" (some "bad-date")]

/-- Batch of 17 raw articles sharing one published date, large enough to
leave numpy's insertion-sort regime. -/
def raws17eq : List RawArticle :=
  (List.range 17).map (fun i => sampleArticle (toString i) (some "2023-06-01"))

/-! ### C1 -/

/-- C1, amended: whenever the raw batch carries a `published date`
column (some record has the field), every row of the normalized output
has a successfully parsed timestamp, unparseable records are excluded,
and the output row count is at most the input row count.  (As stated
over *every* raw sequence the claim fails: a batch in which no record
carries the field skips the date stage entirely, see
`c1_counterexample` and C10.) -/
theorem c1_amended_holds (web : String → HttpResult) (raws : List RawArticle)
    (hcol : "published date" ∈ colsUnion raws) :
    ((normalize web raws).all fun r => r.published_ts.isSome) = true
    ∧ (normalize web raws).length ≤ raws.length := by
  constructor
  · rw [List.all_eq_true]
    intro r hr
    rw [normalize] at hr
    rcases List.mem_map.mp hr with ⟨p, hp, rfl⟩
    rw [normTransform_ts]
    rw [dateStage_col raws hcol] at hp
    have hk := (pandasSortDesc_perm (fun p => p.2.getD 0) (keptRows raws)).mem_iff.mp hp
    rcases List.mem_filter.mp hk with ⟨_, h2⟩
    simpa using h2
  · rw [normalize_length, dateStage_col raws hcol,
      (pandasSortDesc_perm (fun p => p.2.getD 0) (keptRows raws)).length_eq]
    have h1 : (keptRows raws).length ≤
        (raws.map (fun a => (a, a.publishedDate.bind parseDate))).length :=
      List.length_filter_le _ _
    simpa using h1

/-- C1 witness: a one-record batch with a parseable date. -/
theorem c1_amended_instance :
    ((normalize webErr [sampleArticle "X" (some "2023-06-01")]).all
      fun r => r.published_ts.isSome) = true
    ∧ (normalize webErr [sampleArticle "X" (some "2023-06-01")]).length
      ≤ [sampleArticle "X" (some "2023-06-01")].length :=
  c1_amended_holds webErr [sampleArticle "X" (some "2023-06-01")] (by decide)

/-- C1 counterexample: in a batch whose single record has no
`published date` at all — an unparseable published date if there ever
was one — the record is *not* excluded and the lone output row has no
parsed timestamp, against the claim that every output row has one. -/
theorem c1_counterexample :
    ((normalize webErr [sampleArticle "T" none]).all
      fun r => r.published_ts.isSome) = false
    ∧ (normalize webErr [sampleArticle "T" none]).length = 1 := by
  decide

/-! ### C10 -/

/-- C10: when no record of the batch carries a published-date field the
frame has no `published date` column, so the date stage only logs a
warning: no row is dropped, no sort happens, and every record passes
through in its original position with no parsed timestamp. -/
theorem c10_no_date_column_passthrough (web : String → HttpResult)
    (raws : List RawArticle)
    (h : (raws.all fun a => a.publishedDate == none) = true) :
    (normalize web raws).length = raws.length
    ∧ ((normalize web raws).all fun r => r.published_ts == none) = true
    ∧ (normalize web raws).map (fun r => r.title) = raws.map (fun a => a.title) := by
  have hnone : ∀ a ∈ raws, a.publishedDate = none := by
    intro a ha
    have h2 := List.all_eq_true.mp h a ha
    simpa using h2
  have hnocol : "published date" ∉ colsUnion raws := by
    rw [pubdate_col_iff]
    rintro ⟨a, ha, hsome⟩
    rw [hnone a ha] at hsome
    simp at hsome
  refine ⟨?_, ?_, ?_⟩
  · rw [normalize_length, dateStage_nocol raws hnocol, List.length_map]
  · rw [List.all_eq_true]
    intro r hr
    rw [normalize, dateStage_nocol raws hnocol] at hr
    rcases List.mem_map.mp hr with ⟨p, hp, rfl⟩
    rcases List.mem_map.mp hp with ⟨a, _, rfl⟩
    simp [normTransform_ts]
  · rw [normalize, dateStage_nocol raws hnocol, List.map_map, List.map_map]
    have hfun : (((fun r : NormRow => r.title) ∘ normTransform web raws) ∘
        fun a : RawArticle => (a, (none : Option Nat))) = fun a : RawArticle => a.title := by
      funext a
      simp only [Function.comp]
      rw [normTransform_title]
    rw [hfun]

/-- C10 witness: a two-record batch with no published dates. -/
theorem c10_instance :
    (normalize webErr [sampleArticle "P" none, sampleArticle "Q" none]).length
      = [sampleArticle "P" none, sampleArticle "Q" none].length
    ∧ ((normalize webErr [sampleArticle "P" none, sampleArticle "Q" none]).all
        fun r => r.published_ts == none) = true
    ∧ (normalize webErr [sampleArticle "P" none, sampleArticle "Q" none]).map
        (fun r => r.title)
      = [sampleArticle "P" none, sampleArticle "Q" none].map (fun a => a.title) :=
  c10_no_date_column_passthrough webErr
    [sampleArticle "P" none, sampleArticle "Q" none] (by decide)

/-! ### C2 -/

/-- C2, amended: for every batch with a `published date` column whose
surviving rows number at most 16, the normalized output is sorted by
parsed timestamp descending AND rows with equal timestamps keep their
original relative order (pandas reverses the column, argsorts ascending
and reverses the indexer, and numpy finishes segments of ≤ 16 elements
with a stable insertion sort, so the double reversal preserves tie
order).  Beyond 16 surviving rows the claim's stability part fails — the
default numpy quicksort partitioning permutes equal keys — see
`c2_counterexample`; the spec's premise that the source uses a stable
sort primitive is wrong (`sort_values` is called with the default
`kind='quicksort'`). -/
theorem c2_amended_holds (web : String → HttpResult) (raws : List RawArticle) (k : Nat)
    (hcol : "published date" ∈ colsUnion raws)
    (hlen : (keptRows raws).length ≤ 16) :
    List.Sorted (fun r s : NormRow => tsKey s ≤ tsKey r) (normalize web raws)
    ∧ (normalize web raws).filter (fun r => tsKey r == k)
      = ((keptRows raws).filter (fun p => p.2.getD 0 == k)).map (normTransform web raws) := by
  have hkey : ∀ p : RawArticle × Option Nat,
      tsKey (normTransform web raws p) = p.2.getD 0 := by
    intro p
    rw [tsKey, normTransform_ts]
  constructor
  · rw [normalize, dateStage_col raws hcol, List.Sorted, List.pairwise_map]
    have hs := pandasSortDesc_small_sorted (fun p => p.2.getD 0) (keptRows raws) hlen
    refine hs.imp ?_
    intro a b hab
    rw [hkey a, hkey b]
    exact hab
  · rw [normalize, dateStage_col raws hcol]
    have hcomp : ∀ (m : List (RawArticle × Option Nat)),
        (m.map (normTransform web raws)).filter (fun r => tsKey r == k)
          = (m.filter (fun p => p.2.getD 0 == k)).map (normTransform web raws) := by
      intro m
      induction m with
      | nil => rfl
      | cons p t ih =>
        simp only [List.map_cons, List.filter_cons, hkey p]
        by_cases hp : (p.2.getD 0 == k) = true
        · simp only [hp, if_true, List.map_cons, ih]
        · simp only [Bool.not_eq_true] at hp
          simp only [hp, Bool.false_eq_true, if_false, ih]
    rw [hcomp, pandasSortDesc_small_filter (fun p => p.2.getD 0) (keptRows raws) hlen k]

/-- C2 witness: the spec §8 scenario — three articles, one bad date —
has two surviving rows, sorted descending, with stable tie order. -/
theorem c2_amended_instance :
    List.Sorted (fun r s : NormRow => tsKey s ≤ tsKey r) (normalize webErr raws3)
    ∧ (normalize webErr raws3).filter (fun r => tsKey r == 20230601)
      = ((keptRows raws3).filter (fun p => p.2.getD 0 == 20230601)).map
          (normTransform webErr raws3) :=
  c2_amended_holds webErr raws3 20230601 (by decide) (by decide)

/-- C2 counterexample: 17 records sharing one timestamp all survive
parsing, yet the output rows do not keep their original relative order —
numpy's quicksort partition phase (median-of-three swaps plus the scan
swaps) permutes equal keys once a segment exceeds 16 elements, so the
sort the source uses is not stable. -/
theorem c2_counterexample :
    (normalize webErr raws17eq).length = 17
    ∧ (normalize webErr raws17eq).map (fun r => r.title)
      ≠ raws17eq.map (fun a => a.title) := by
  constructor
  · decide
  · decide

/-! ### C3 -/

/-- C3: publisher flattening.  A structured publisher object maps its
`href`/`title` straight into the two derived cells; an absent publisher
leaves both cells empty; a text publisher that fails JSON decoding
leaves both cells empty with a logged diagnostic and the record is not
dropped (the publisher stage is a per-row map, so the row count after it
equals the row count after the date stage); and the combined `publisher`
column is removed from the output schema. -/
theorem c3_publisher_flattening (h t : Option String) (s : String)
    (web : String → HttpResult) (raws : List RawArticle)
    (hs : jsonLoadsObj s = none) :
    (flatten_publisher (some (PubVal.dict h t))).1 = (h, t)
    ∧ (flatten_publisher none).1 = (none, none)
    ∧ (flatten_publisher (some (PubVal.str s))).1 = (none, none)
    ∧ (flatten_publisher (some (PubVal.str s))).2 = true
    ∧ (normalize web raws).length = (dateStage raws).length
    ∧ "publisher" ∉ outCols raws := by
  refine ⟨rfl, rfl, ?_, ?_, ?_, publisher_not_mem_outCols raws⟩
  · simp [flatten_publisher, hs]
  · simp [flatten_publisher, hs]
  · simp [normalize]

/-- C3 witness: the spec's own example object and its non-JSON text
blob. -/
theorem c3_instance :
    (flatten_publisher (some (PubVal.dict (some "http://a") (some "A")))).1
      = (some "http://a", some "A")
    ∧ (flatten_publisher none).1 = (none, none)
    ∧ (flatten_publisher (some (PubVal.str "not valid json"))).1 = (none, none)
    ∧ (flatten_publisher (some (PubVal.str "not valid json"))).2 = true
    ∧ (normalize webErr raws3).length = (dateStage raws3).length
    ∧ "publisher" ∉ outCols raws3 :=
  c3_publisher_flattening (some "http://a") (some "A") "not valid json" webErr raws3
    (by decide)

/-! ### C4 -/

/-- C4, amended: on a successful fetch the preview prefers the page's
meta description truncated to 150 characters — but the ellipsis marker
is appended to it *unconditionally*, truncated or not (line 41 runs
`description.get('content')[:150] + '...'` with no length test); only
the visible-text fallback appends the marker solely when the text
exceeds 150 characters.  The claim's "marker only if actually truncated"
is wrong for the meta-description branch, see `c4_counterexample`. -/
theorem c4_amended_holds (web : String → HttpResult) (u v w : String)
    (c t s1 s2 : String)
    (h1 : web u = HttpResult.ok ⟨some c, t⟩) (hc : c ≠ "")
    (h2 : web v = HttpResult.ok ⟨none, s1⟩) (hs1 : s1.length ≤ 150)
    (h3 : web w = HttpResult.ok ⟨none, s2⟩) (hs2 : 150 < s2.length) :
    fetch_preview web (some u) = c.take 150 ++ "..."
    ∧ fetch_preview web (some v) = s1
    ∧ fetch_preview web (some w) = s2.take 150 ++ "..." := by
  refine ⟨?_, ?_, ?_⟩
  · simp [fetch_preview, h1, previewOfPage, hc]
  · simp only [fetch_preview, h2, previewOfPage, textFallback]
    rw [if_neg (by omega)]
  · simp only [fetch_preview, h3, previewOfPage, textFallback]
    rw [if_pos (by omega)]

/-- Visible text longer than 150 characters, for the C4 witness. -/
def longText : String := String.mk (List.replicate 151 'x')

/-- Web oracle serving the three C4 pages. -/
def web3 : String → HttpResult := fun url =>
  if url = "u" then HttpResult.ok ⟨some "short", "body"⟩
  else if url = "v" then HttpResult.ok ⟨none, "tiny"⟩
  else HttpResult.ok ⟨none, longText⟩

/-- C4 witness: the three success shapes at concrete pages. -/
theorem c4_amended_instance :
    fetch_preview web3 (some "u") = "short".take 150 ++ "..."
    ∧ fetch_preview web3 (some "v") = "tiny"
    ∧ fetch_preview web3 (some "w") = longText.take 150 ++ "..." :=
  c4_amended_holds web3 "u" "v" "w" "short" "body" "tiny" longText
    (by decide) (by decide) (by decide) (by decide) (by decide) (by decide)

/-- C4 counterexample: a five-character meta description comes back as
`"short..."` — the ellipsis marker is appended although nothing was
truncated, where the claim requires plain `"short"`. -/
theorem c4_counterexample :
    fetch_preview (fun _ => HttpResult.ok ⟨some "short", "body"⟩) (some "u") = "short..."
    ∧ ("short" : String).length ≤ 150
    ∧ ("short..." : String) ≠ "short" := by
  refine ⟨rfl, by decide, by decide⟩

/-! ### C5 -/

/-- C5: any failed preview fetch — a missing URL (NaN cell) or any
raised transport/status/parse error — yields exactly the placeholder
text, which is not the empty string; `fetch_preview` is a total
function, so no exception reaches the caller. -/
theorem c5_preview_failure_placeholder (web : String → HttpResult) (u : String)
    (hfail : web u = HttpResult.err) :
    fetch_preview web none = "No preview available."
    ∧ fetch_preview web (some u) = "No preview available."
    ∧ ("No preview available." : String) ≠ "" := by
  refine ⟨rfl, ?_, by decide⟩
  simp [fetch_preview, hfail]

/-- C5 witness: a URL whose fetch times out. -/
theorem c5_instance :
    fetch_preview webErr none = "No preview available."
    ∧ fetch_preview webErr (some "http://x") = "No preview available."
    ∧ ("No preview available." : String) ≠ "" :=
  c5_preview_failure_placeholder webErr "http://x" rfl

/-! ### C6 -/

/-- C6, amended: the bounds on the configuration are enforced by the
sidebar widgets, not by the core.  Whatever the user picks, the widget
ranges (`min_value`/`max_value` of the two date pickers, the slider's
`[1, 100]`) mean `configure_sidebar` can only produce configurations
with `start_date ≤ end_date` and `1 ≤ max_results ≤ 100`.  The body of
`scrape_google_news` itself performs no validation and contacts the
provider for any argument values — see `c6_counterexample` — so the
claim that the *core* rejects out-of-range requests before the fetch is
wrong. -/
theorem c6_amended_holds (today : Int) (q : String) (sp ep mp : Int) :
    (configure_sidebar today q sp ep mp).start_date
      ≤ (configure_sidebar today q sp ep mp).end_date
    ∧ 1 ≤ (configure_sidebar today q sp ep mp).max_results
    ∧ (configure_sidebar today q sp ep mp).max_results ≤ 100 := by
  refine ⟨?_, ?_, ?_⟩
  · exact le_max_left _ _
  · exact le_max_left _ _
  · exact max_le (by norm_num) (min_le_left _ _)

/-- C6 counterexample: `scrape_google_news` called directly with
`start_date > end_date` and `max_results = 0` still issues the provider
call — the returned row comes from the provider, so the request was not
rejected before the fetch. -/
theorem c6_counterexample :
    (3 : Int) < 5 ∧ (0 : Int) < 1
    ∧ (scrape_google_news webErr providerOne "q" 5 3 0).rows.length = 1
    ∧ (scrape_google_news webErr providerOne "q" 5 3 0).errorReported = false := by
  refine ⟨by norm_num, by norm_num, by decide, by decide⟩

/-! ### C7 -/

/-- C7: the fetch boundary never raises to its caller.  A provider that
yields no matches produces an empty frame with only the informational
warning logged and no error reported; a provider that raises is caught
by the `except` branch, which reports the error via `st.error` and
returns the same empty frame.  Both embeddings are total functions, so
the process never terminates on these paths. -/
theorem c7_fetch_never_raises (web : String → HttpResult)
    (p1 p2 : FetchCall → ProviderResult) (q : String) (s e m : Int)
    (h1 : p1 (mkFetchCall q s e m) = ProviderResult.err)
    (h2 : p2 (mkFetchCall q s e m) = ProviderResult.ok []) :
    ((scrape_google_news web p1 q s e m).rows = []
      ∧ (scrape_google_news web p1 q s e m).errorReported = true)
    ∧ ((scrape_google_news web p2 q s e m).rows = []
      ∧ (scrape_google_news web p2 q s e m).errorReported = false
      ∧ (scrape_google_news web p2 q s e m).warnedNoResults = true) := by
  refine ⟨?_, ?_⟩ <;> simp [scrape_google_news, h1, h2]

/-- C7 witness: a raising provider and a zero-result provider. -/
theorem c7_instance :
    ((scrape_google_news webErr providerErr "q" 0 1 10).rows = []
      ∧ (scrape_google_news webErr providerErr "q" 0 1 10).errorReported = true)
    ∧ ((scrape_google_news webErr providerEmpty "q" 0 1 10).rows = []
      ∧ (scrape_google_news webErr providerEmpty "q" 0 1 10).errorReported = false
      ∧ (scrape_google_news webErr providerEmpty "q" 0 1 10).warnedNoResults = true) :=
  c7_fetch_never_raises webErr providerErr providerEmpty "q" 0 1 10 rfl rfl

/-! ### C8 -/

/-- C8, amended: an empty raw input yields an empty output table and no
error, as claimed — but the CSV half of the claim does not match the
code.  The early return hands back `pd.DataFrame()`, a frame with *no
columns*, so its CSV export is a single blank line containing no field
names; moreover `display_news_data` returns at its empty-frame guard
before any download button exists, so the app never offers that export
at all. -/
theorem c8_amended_holds (web : String → HttpResult)
    (provider : FetchCall → ProviderResult) (q : String) (s e m : Int)
    (h : provider (mkFetchCall q s e m) = ProviderResult.ok []) :
    (scrape_google_news web provider q s e m).rows = []
    ∧ (scrape_google_news web provider q s e m).errorReported = false
    ∧ (scrape_google_news web provider q s e m).cols = []
    ∧ to_csv (scrape_google_news web provider q s e m).cols
        (scrape_google_news web provider q s e m).rows = "\n"
    ∧ display_news_data (scrape_google_news web provider q s e m).rows
        = DisplayAction.infoNoArticles := by
  simp [scrape_google_news, h, to_csv, display_news_data]
  rfl

/-- C8 witness: the zero-result provider at one concrete call. -/
theorem c8_amended_instance :
    (scrape_google_news webErr providerEmpty "q" 2 5 7).rows = []
    ∧ (scrape_google_news webErr providerEmpty "q" 2 5 7).errorReported = false
    ∧ (scrape_google_news webErr providerEmpty "q" 2 5 7).cols = []
    ∧ to_csv (scrape_google_news webErr providerEmpty "q" 2 5 7).cols
        (scrape_google_news webErr providerEmpty "q" 2 5 7).rows = "\n"
    ∧ display_news_data (scrape_google_news webErr providerEmpty "q" 2 5 7).rows
        = DisplayAction.infoNoArticles :=
  c8_amended_holds webErr providerEmpty "q" 2 5 7 rfl

/-- C8 counterexample: for empty raw input the exported CSV is `"\n"` —
an empty header line, not a header row of field names (the empty frame
has no schema), and the display layer in fact offers no export for it. -/
theorem c8_counterexample :
    (scrape_google_news webErr providerEmpty "q" 0 1 10).cols = []
    ∧ to_csv (scrape_google_news webErr providerEmpty "q" 0 1 10).cols
        (scrape_google_news webErr providerEmpty "q" 0 1 10).rows = "\n"
    ∧ display_news_data (scrape_google_news webErr providerEmpty "q" 0 1 10).rows
        = DisplayAction.infoNoArticles := by
  refine ⟨by decide, rfl, by decide⟩

/-! ### C9 -/

/-- C9, amended: `to_csv` is a pure, deterministic function of the table
contents (its embedding takes nothing but the table), but the
spreadsheet exporter is deterministic only up to the generation
timestamp: openpyxl stamps the workbook's creation time
(`datetime.now()`) into `docProps/core.xml`, so two runs on the same
table produce identical bytes exactly when the wall clock agrees. -/
theorem c9_amended_holds (cols : List String) (rows : List NormRow) (n1 n2 : Nat) :
    generate_excel_download cols rows n1 = generate_excel_download cols rows n2
      ↔ n1 = n2 := by
  simp [generate_excel_download, XlsxFile.mk.injEq]

/-- C9 witness: equal clocks give equal bytes on a concrete table. -/
theorem c9_amended_instance :
    (generate_excel_download ["title"] [] 5 = generate_excel_download ["title"] [] 5
      ↔ (5 : Nat) = 5) :=
  c9_amended_holds ["title"] [] 5 5

/-- C9 counterexample: two runs of the spreadsheet exporter on tables
with identical row contents but at different wall-clock instants give
different byte sequences, against the claimed byte-for-byte
determinism. -/
theorem c9_counterexample :
    generate_excel_download ["title"] [] 0 ≠ generate_excel_download ["title"] [] 1 := by
  decide

end NewsApp